import Mathlib

/-
Verification of the internet-checker core (src/app/main.py) against its
specification.

The source is a Python module with a class InternetChecker whose core logic
consists of three methods:
  check_url          -- one bounded HTTP GET, outcome classified to a
                        (success, detail) tuple;
  check_all_services -- probes google, yandex, and (if a bot token is
                        configured) the telegram API, collecting results in
                        a dict in insertion order;
  analyze_results    -- the verdict policy: a pure function from the result
                        dict to an (internet-up, message) tuple.

The network is modelled as an oracle value (NetOutcome) supplied per probe:
it is either an HTTP response with a status code, or one of the exception
classes the source catches.  Diagnostic strings are kept exactly as in the
source (Russian); the specification glosses them in English, e.g.
"Internet available" for the string that appears here.
-/

namespace NetworkChecker

/-- Outcome of the single HTTP GET issued inside check_url: a response
carrying a status code, or one of the fault classes the source handles
(Timeout, ConnectionError, RequestException, and the catch-all Exception). -/
inductive NetOutcome where
| response (status : Nat)
| timeout
| connectionError
| requestError (cause : String)
| otherError (cause : String)
deriving DecidableEq

/-- A fault is any outcome of the network call other than receiving a
response: in the source these are the raised exceptions. -/
def isFault : NetOutcome → Bool
| NetOutcome.response _ => false
| NetOutcome.timeout => true
| NetOutcome.connectionError => true
| NetOutcome.requestError _ => true
| NetOutcome.otherError _ => true

/-- A ProbeResult is the python tuple (success, detail) returned by
check_url. -/
abbrev ProbeResult := Bool × String

/-- A ResultSet is the python dict from endpoint name to ProbeResult built
by check_all_services, modelled as an association list in insertion order
(python dicts iterate in insertion order and have pairwise-distinct keys). -/
abbrev ResultSet := List (String × ProbeResult)

/-- Python truth test on an optional string: None and the empty string are
falsy, every other string is truthy. -/
def pyFalsy : Option String → Bool
| none => true
| some s => s == ""

/-- Negation of the python falsiness test. -/
def pyTruthy (u : Option String) : Bool := !pyFalsy u

/-- The urls dict built in the constructor of InternetChecker: google and
yandex are fixed, telegram is present only when the bot token is truthy. -/
structure Urls where
  google : Option String
  yandex : Option String
  telegram : Option String

/-- Constructor logic of InternetChecker restricted to the urls dict:
the telegram url is the f-string with the token interpolated when the token
is truthy, and None otherwise. -/
def mkUrls (telegram_bot_token : Option String) : Urls :=
  ⟨some "https://www.google.com",
   some "https://ya.ru",
   if pyTruthy telegram_bot_token then
     some ("https://api.telegram.org/bot" ++ telegram_bot_token.getD "" ++ "/getMe")
   else none⟩

/-- check_url instrumented with a count of network calls issued: the guard
on a falsy url returns before the session is consulted (0 calls), every
other path performs exactly one GET whose outcome the oracle supplies. -/
def check_url_run (url : Option String) (net : NetOutcome) : ProbeResult × Nat :=
  if pyFalsy url then
    ((false, "URL не настроен"), 0)
  else
    match net with
    | NetOutcome.response status =>
        if status = 200 then ((true, "Успешно"), 1)
        else ((false, "HTTP " ++ toString status), 1)
    | NetOutcome.timeout => ((false, "Таймаут"), 1)
    | NetOutcome.connectionError => ((false, "Ошибка соединения"), 1)
    | NetOutcome.requestError cause => ((false, "Ошибка запроса: " ++ cause), 1)
    | NetOutcome.otherError cause => ((false, "Неожиданная ошибка: " ++ cause), 1)

/-- The ProbeResult returned by check_url. -/
def check_url (url : Option String) (net : NetOutcome) : ProbeResult :=
  (check_url_run url net).1

/-- Number of network calls check_url issues on the given input. -/
def check_url_calls (url : Option String) (net : NetOutcome) : Nat :=
  (check_url_run url net).2

/-- check_all_services: probes google, then yandex, then telegram if its
url is truthy, collecting the results in a dict in that insertion order.
The three oracle arguments supply the network outcome of each GET. -/
def check_all_services (token : Option String)
    (netGoogle netYandex netTelegram : NetOutcome) : ResultSet :=
  let urls := mkUrls token
  let results : ResultSet := [("google", check_url urls.google netGoogle)]
  let results := results ++ [("yandex", check_url urls.yandex netYandex)]
  if pyTruthy urls.telegram then
    results ++ [("telegram", check_url urls.telegram netTelegram)]
  else
    results

/-- Number of configured endpoints for a cycle: the two baseline urls plus
the telegram url when it is truthy. -/
def configured_count (token : Option String) : Nat :=
  2 + (if pyTruthy (mkUrls token).telegram then 1 else 0)

/-- The number of successful entries in a ResultSet, as computed by the
generator sum at the top of analyze_results. -/
def successful_checks (results : ResultSet) : Nat :=
  results.countP (fun e => e.2.1)

/-- The guard of the telegram-caveat branch in analyze_results: telegram is
a key of the dict, its entry failed, and every entry under a key other than
telegram succeeded. -/
def telegramOnlyFailure (results : ResultSet) : Bool :=
  match List.lookup "telegram" results with
  | some r => (!r.1) && results.all (fun e => e.1 == "telegram" || e.2.1)
  | none => false

/-- The verdict policy analyze_results, translated line by line: count the
successes, fix the threshold at 2 by the two-armed conditional of the
source, return the success verdict when the threshold is met, otherwise
accumulate the failed entries in iteration order and return either the
telegram caveat or the failure verdict listing the failures. -/
def analyze_results (results : ResultSet) : Bool × String :=
  let total_checks := results.length
  let threshold := if total_checks = 2 then 2 else 2
  if successful_checks results ≥ threshold then
    (true, "Интернет доступен")
  else
    let failed_services := results.foldl
      (fun acc e => if e.2.1 then acc else acc ++ [e.1 ++ ": " ++ e.2.2]) []
    if telegramOnlyFailure results then
      (true, "Интернет доступен, но проблемы с Telegram API")
    else
      (false, "Проблемы с интернетом. Ошибки: " ++ String.intercalate ", " failed_services)

/-- Spec-side description of the failure listing: exactly the failed
entries, each rendered as name, colon, space, detail, in the iteration
order of the ResultSet.  Stated from the words of the specification, to be
compared with the accumulator loop of the source. -/
def failedEntriesSpec (results : ResultSet) : List String :=
  (results.filter (fun e => !e.2.1)).map (fun e => e.1 ++ ": " ++ e.2.2)


lemma append_ne_empty (s t : String) (h : s ≠ "") : s ++ t ≠ "" := by
  intro he
  apply h
  have hl := congrArg String.length he
  simp at hl
  have : s.data.length = 0 := hl.1
  exact String.ext (List.length_eq_zero.mp this)

lemma intercalate_singleton (s x : String) : String.intercalate s [x] = x := rfl

lemma intercalate_pair (s x y : String) : String.intercalate s [x, y] = x ++ s ++ y := rfl

lemma analyze_results_threshold (results : ResultSet)
    (h : 2 ≤ successful_checks results) :
    analyze_results results = (true, "Интернет доступен") := by
  unfold analyze_results
  simp only [ite_self, ge_iff_le, if_pos h]

lemma foldl_failed (results : ResultSet) (acc : List String) :
    results.foldl (fun acc e => if e.2.1 then acc else acc ++ [e.1 ++ ": " ++ e.2.2]) acc
      = acc ++ failedEntriesSpec results := by
  induction results generalizing acc with
  | nil => simp [failedEntriesSpec]
  | cons e t ih =>
      by_cases he : e.2.1 = true
      · simp [List.foldl_cons, he, ih, failedEntriesSpec]
      · simp only [Bool.not_eq_true] at he
        simp [List.foldl_cons, he, ih, failedEntriesSpec, List.append_assoc]


lemma two_le_countP {α : Type} {p : α → Bool} {l : List α} {a b : α}
    (ha : a ∈ l) (hb : b ∈ l) (hab : a ≠ b)
    (hpa : p a = true) (hpb : p b = true) : 2 ≤ l.countP p := by
  induction l with
  | nil => cases ha
  | cons x t ih =>
      rw [List.countP_cons]
      rcases List.mem_cons.mp ha with hax | hat
      · rcases List.mem_cons.mp hb with hbx | hbt
        · exact absurd (hax.trans hbx.symm) hab
        · have h1 : 0 < t.countP p := List.countP_pos_iff.mpr ⟨b, hbt, hpb⟩
          have hpx : p x = true := hax ▸ hpa
          rw [if_pos hpx]
          omega
      · rcases List.mem_cons.mp hb with hbx | hbt
        · have h1 : 0 < t.countP p := List.countP_pos_iff.mpr ⟨a, hat, hpa⟩
          have hpx : p x = true := hbx ▸ hpb
          rw [if_pos hpx]
          omega
        · have := ih hat hbt
          omega

/-- Claim C1: for every ResultSet in which at least 2 entries succeed, the
verdict of analyze_results is internet-up with the availability message
(the string the specification glosses as Internet available), regardless
of the number of entries: the threshold of the source is 2 in both arms of
its conditional. -/
theorem C1_threshold_two (results : ResultSet)
    (h : 2 ≤ successful_checks results) :
    analyze_results results = (true, "Интернет доступен") :=
  analyze_results_threshold results h

/-- Witness for C1 on a concrete 2-entry ResultSet and a concrete 3-entry
ResultSet with exactly 2 successes. -/
theorem C1_threshold_two_witness :
    analyze_results [("google", (true, "Успешно")), ("yandex", (true, "Успешно"))]
      = (true, "Интернет доступен")
    ∧ analyze_results
        [("google", (true, "Успешно")), ("yandex", (true, "Успешно")),
         ("telegram", (false, "HTTP 401"))]
      = (true, "Интернет доступен") :=
  ⟨C1_threshold_two _ (by decide), C1_threshold_two _ (by decide)⟩

/-- Claim C9: the verdict is a pure, deterministic function of the
ResultSet: analyze_results is a mathematical function in this embedding
(faithful because the source method reads nothing but its argument), so
equal ResultSets yield equal verdicts. -/
theorem C9_verdict_pure (r1 r2 : ResultSet) (h : r1 = r2) :
    analyze_results r1 = analyze_results r2 :=
  congrArg analyze_results h

/-- Witness for C9 at a concrete ResultSet. -/
theorem C9_verdict_pure_witness :
    analyze_results [("google", (true, "Успешно")), ("yandex", (false, "Таймаут"))]
      = analyze_results [("google", (true, "Успешно")), ("yandex", (false, "Таймаут"))] :=
  C9_verdict_pure _ _ rfl

/-- Claim C7: probing an endpoint whose url is absent or empty returns
failure with the unconfigured-url detail and issues no network call: the
call counter of the instrumented check_url is 0 and the result does not
depend on the network oracle. -/
theorem C7_unconfigured_no_call (url : Option String) (net : NetOutcome)
    (h : pyFalsy url = true) :
    check_url url net = (false, "URL не настроен") ∧ check_url_calls url net = 0 := by
  unfold check_url check_url_calls check_url_run
  rw [if_pos h]
  exact ⟨rfl, rfl⟩

/-- Witness for C7 at the two falsy urls, absent and empty. -/
theorem C7_unconfigured_no_call_witness :
    (check_url none NetOutcome.timeout = (false, "URL не настроен")
      ∧ check_url_calls none NetOutcome.timeout = 0)
    ∧ (check_url (some "") (NetOutcome.response 200) = (false, "URL не настроен")
      ∧ check_url_calls (some "") (NetOutcome.response 200) = 0) :=
  ⟨C7_unconfigured_no_call none NetOutcome.timeout (by decide),
   C7_unconfigured_no_call (some "") (NetOutcome.response 200) (by decide)⟩


lemma pyFalsy_of_ne (u : String) (h : u ≠ "") : pyFalsy (some u) = false := by
  simp [pyFalsy, h]

/-- Claim C6: classification of probe outcomes by check_url for a
configured (non-empty) url: status 200 is the only success, with the
success detail; any other status gives the HTTP-status detail; the three
handled exception classes and the catch-all give their respective details
(the source strings are Russian, glossed in the spec as success, HTTP
status, timeout, connection error, request error and unexpected error). -/
theorem C6_outcome_classification (u : String) (h : u ≠ "") :
    (∀ status : Nat,
      check_url (some u) (NetOutcome.response status)
        = if status = 200 then (true, "Успешно") else (false, "HTTP " ++ toString status))
    ∧ check_url (some u) NetOutcome.timeout = (false, "Таймаут")
    ∧ check_url (some u) NetOutcome.connectionError = (false, "Ошибка соединения")
    ∧ (∀ cause : String,
        check_url (some u) (NetOutcome.requestError cause) = (false, "Ошибка запроса: " ++ cause))
    ∧ (∀ cause : String,
        check_url (some u) (NetOutcome.otherError cause) = (false, "Неожиданная ошибка: " ++ cause)) := by
  have hf := pyFalsy_of_ne u h
  refine ⟨?_, ?_, ?_, ?_, ?_⟩ <;>
    intros <;>
    simp [check_url, check_url_run, hf, apply_ite Prod.fst]

/-- Witness for C6 at a concrete url, status 200, status 503 and a
timeout. -/
theorem C6_outcome_classification_witness :
    check_url (some "https://www.google.com") (NetOutcome.response 200) = (true, "Успешно")
    ∧ check_url (some "https://www.google.com") (NetOutcome.response 503) = (false, "HTTP 503")
    ∧ check_url (some "https://www.google.com") NetOutcome.timeout = (false, "Таймаут") := by
  have h := C6_outcome_classification "https://www.google.com" (by decide)
  exact ⟨(h.1 200).trans (by decide), (h.1 503).trans (by decide), h.2.1⟩

/-- Claim C8: every fault of the network call is captured inside check_url
and converted into a failed ProbeResult with a non-empty diagnostic detail
(no exception escapes: in the embedding check_url is total and returns a
ProbeResult on every oracle outcome), and consequently a cycle always
produces a full ResultSet, one entry per configured endpoint, whatever the
three network outcomes are. -/
theorem C8_faults_contained :
    (∀ (url : Option String) (net : NetOutcome), isFault net = true →
      (check_url url net).1 = false ∧ (check_url url net).2 ≠ "")
    ∧ (∀ (token : Option String) (netGoogle netYandex netTelegram : NetOutcome),
      (check_all_services token netGoogle netYandex netTelegram).length
        = configured_count token) := by
  constructor
  · intro url net hfault
    by_cases hu : pyFalsy url = true
    · unfold check_url check_url_run
      rw [if_pos hu]
      exact ⟨rfl, by decide⟩
    · rw [Bool.not_eq_true] at hu
      cases net with
      | response status => simp [isFault] at hfault
      | timeout => unfold check_url check_url_run; rw [if_neg (by simp [hu])]; exact ⟨rfl, by decide⟩
      | connectionError => unfold check_url check_url_run; rw [if_neg (by simp [hu])]; exact ⟨rfl, by decide⟩
      | requestError cause =>
          unfold check_url check_url_run
          rw [if_neg (by simp [hu])]
          exact ⟨rfl, append_ne_empty _ _ (by decide)⟩
      | otherError cause =>
          unfold check_url check_url_run
          rw [if_neg (by simp [hu])]
          exact ⟨rfl, append_ne_empty _ _ (by decide)⟩
  · intro token netGoogle netYandex netTelegram
    unfold check_all_services configured_count
    by_cases ht : pyTruthy (mkUrls token).telegram = true
    · simp [ht]
    · rw [Bool.not_eq_true] at ht
      simp [ht]

/-- Witness for C8 on a concrete fault and a concrete cycle. -/
theorem C8_faults_contained_witness :
    ((check_url (some "https://ya.ru") NetOutcome.connectionError).1 = false
      ∧ (check_url (some "https://ya.ru") NetOutcome.connectionError).2 ≠ "")
    ∧ (check_all_services none NetOutcome.timeout NetOutcome.connectionError
        (NetOutcome.otherError "boom")).length = configured_count none :=
  ⟨C8_faults_contained.1 (some "https://ya.ru") NetOutcome.connectionError (by decide),
   C8_faults_contained.2 none NetOutcome.timeout NetOutcome.connectionError
     (NetOutcome.otherError "boom")⟩


lemma pyTruthy_mkUrls_telegram (token : Option String) :
    pyTruthy (mkUrls token).telegram = pyTruthy token := by
  cases token with
  | none => simp [mkUrls, pyTruthy, pyFalsy]
  | some t =>
      by_cases ht : t = ""
      · simp [mkUrls, pyTruthy, pyFalsy, ht]
      · have hne : "https://api.telegram.org/bot" ++ t ++ "/getMe" ≠ "" :=
          append_ne_empty _ _ (append_ne_empty _ _ (by decide))
        simp [mkUrls, pyTruthy, pyFalsy, ht, hne]

/-- Claim C5: the ResultSet of a cycle always has entries for the keys
google and yandex, has an entry for the key telegram exactly when the bot
token is truthy (non-absent and non-empty, which makes the telegram url
truthy), and its size is exactly the number of configured endpoints, 2
without a token and 3 with one. -/
theorem C5_resultset_shape (token : Option String)
    (netGoogle netYandex netTelegram : NetOutcome) :
    (List.lookup "google" (check_all_services token netGoogle netYandex netTelegram)).isSome = true
    ∧ (List.lookup "yandex" (check_all_services token netGoogle netYandex netTelegram)).isSome = true
    ∧ (List.lookup "telegram" (check_all_services token netGoogle netYandex netTelegram)).isSome
        = pyTruthy token
    ∧ (check_all_services token netGoogle netYandex netTelegram).length
        = configured_count token
    ∧ configured_count token = (if pyTruthy token then 3 else 2) := by
  have htr := pyTruthy_mkUrls_telegram token
  by_cases ht : pyTruthy (mkUrls token).telegram = true
  · rw [ht] at htr
    unfold check_all_services configured_count
    simp [ht, ← htr, List.lookup]
  · rw [Bool.not_eq_true] at ht
    rw [ht] at htr
    unfold check_all_services configured_count
    simp [ht, ← htr, List.lookup]


/-- Claim C3: on a ResultSet holding exactly the two baseline entries
(google and yandex, no telegram entry), the verdict is internet-up exactly
when both entries succeed, and a failure of either baseline endpoint
produces the internet-down verdict whose message names that endpoint with
its detail (comma-joined when both fail, in iteration order). -/
theorem C3_two_entry_policy (rg ry : ProbeResult) :
    ((analyze_results [("google", rg), ("yandex", ry)]).1 = (rg.1 && ry.1))
    ∧ (rg.1 = false → ry.1 = true →
        analyze_results [("google", rg), ("yandex", ry)]
          = (false, "Проблемы с интернетом. Ошибки: " ++ ("google: " ++ rg.2)))
    ∧ (rg.1 = true → ry.1 = false →
        analyze_results [("google", rg), ("yandex", ry)]
          = (false, "Проблемы с интернетом. Ошибки: " ++ ("yandex: " ++ ry.2)))
    ∧ (rg.1 = false → ry.1 = false →
        analyze_results [("google", rg), ("yandex", ry)]
          = (false, "Проблемы с интернетом. Ошибки: "
              ++ ("google: " ++ rg.2 ++ ", " ++ ("yandex: " ++ ry.2)))) := by
  obtain ⟨bg, dg⟩ := rg
  obtain ⟨by_, dy⟩ := ry
  cases bg <;> cases by_ <;>
    simp [analyze_results, successful_checks, telegramOnlyFailure, List.lookup,
      intercalate_singleton, intercalate_pair, String.append_assoc] <;>
    rfl

/-- Witness for C3 at concrete entries where yandex fails by timeout. -/
theorem C3_two_entry_policy_witness :
    analyze_results [("google", (true, "Успешно")), ("yandex", (false, "Таймаут"))]
      = (false, "Проблемы с интернетом. Ошибки: " ++ ("yandex: " ++ "Таймаут")) :=
  (C3_two_entry_policy (true, "Успешно") (false, "Таймаут")).2.2.1 rfl rfl


/-- Counterexample to claim C2 as stated: a ResultSet whose only entry is a
failed telegram probe has 0 successful entries, fewer than 2, yet
analyze_results returns internet-up true (through the telegram-caveat
branch), not the internet-down verdict the claim requires for every
ResultSet with fewer than 2 successes. -/
theorem C2_counterexample :
    successful_checks [("telegram", (false, "HTTP 403"))] < 2
    ∧ (analyze_results [("telegram", (false, "HTTP 403"))]).1 = true := by
  exact ⟨by decide, by decide⟩

/-- Claim C2 as amended: for every ResultSet with fewer than 2 successful
entries, if it is not the case that a failed telegram entry is present with
every non-telegram entry successful, the verdict is internet-down with the
message listing exactly the failed endpoints, each rendered name-colon-
space-detail, comma-joined in iteration order; in the excluded case the
caveat branch returns internet-up with the telegram-caveat message. -/
theorem C2_failure_message (results : ResultSet)
    (h : successful_checks results < 2) :
    (telegramOnlyFailure results = false →
      analyze_results results
        = (false, "Проблемы с интернетом. Ошибки: "
            ++ String.intercalate ", " (failedEntriesSpec results)))
    ∧ (telegramOnlyFailure results = true →
      analyze_results results = (true, "Интернет доступен, но проблемы с Telegram API")) := by
  have hnot : ¬ (successful_checks results ≥ if results.length = 2 then 2 else 2) := by
    rw [ite_self]
    omega
  constructor
  · intro hc
    unfold analyze_results
    rw [if_neg hnot, foldl_failed, hc]
    simp
  · intro hc
    unfold analyze_results
    rw [if_neg hnot, hc]
    simp

/-- Witness for the amended C2: both baselines fail with no telegram entry
(first conjunct), and the counterexample shape (second conjunct). -/
theorem C2_failure_message_witness :
    analyze_results [("google", (false, "Таймаут")), ("yandex", (false, "Ошибка соединения"))]
      = (false, "Проблемы с интернетом. Ошибки: "
          ++ String.intercalate ", "
              (failedEntriesSpec
                [("google", (false, "Таймаут")), ("yandex", (false, "Ошибка соединения"))]))
    ∧ analyze_results [("telegram", (false, "Таймаут"))]
      = (true, "Интернет доступен, но проблемы с Telegram API") :=
  ⟨(C2_failure_message _ (by decide)).1 (by decide),
   (C2_failure_message _ (by decide)).2 (by decide)⟩

/-- Claim C4: whenever a ResultSet contains a successful google entry and a
successful yandex entry (in particular the 3-entry set where both baselines
succeed and telegram fails), the success count already meets the threshold
of 2 and analyze_results returns the plain availability verdict, so the
telegram-caveat branch is never taken on such a ResultSet. -/
theorem C4_caveat_unreachable :
    (∀ dg dy dt : String,
      analyze_results
          [("google", (true, dg)), ("yandex", (true, dy)), ("telegram", (false, dt))]
        = (true, "Интернет доступен"))
    ∧ (∀ (results : ResultSet) (g y : ProbeResult),
      ("google", g) ∈ results → ("yandex", y) ∈ results →
      g.1 = true → y.1 = true →
      analyze_results results = (true, "Интернет доступен")) := by
  have main : ∀ (results : ResultSet) (g y : ProbeResult),
      ("google", g) ∈ results → ("yandex", y) ∈ results →
      g.1 = true → y.1 = true →
      analyze_results results = (true, "Интернет доступен") := by
    intro results g y hg hy hgs hys
    apply analyze_results_threshold
    apply two_le_countP hg hy _ hgs hys
    intro he
    have : "google" = "yandex" := congrArg Prod.fst he
    simp at this
  exact ⟨fun dg dy dt => main _ (true, dg) (true, dy) (by simp) (by simp) rfl rfl, main⟩

/-- Witness for C4 at a concrete 3-entry ResultSet where telegram fails
with HTTP 403. -/
theorem C4_caveat_unreachable_witness :
    analyze_results
        [("google", (true, "Успешно")), ("yandex", (true, "Успешно")),
         ("telegram", (false, "HTTP 403"))]
      = (true, "Интернет доступен") :=
  C4_caveat_unreachable.2 _ (true, "Успешно") (true, "Успешно")
    (by simp) (by simp) rfl rfl


lemma caveat_three (cg cy ct : ProbeResult)
    (h : telegramOnlyFailure [("google", cg), ("yandex", cy), ("telegram", ct)] = true) :
    analyze_results [("google", cg), ("yandex", cy), ("telegram", ct)]
      = (true, "Интернет доступен") := by
  have k1 : (("telegram" : String) == "google") = false := by decide
  have k2 : (("telegram" : String) == "yandex") = false := by decide
  have k3 : (("telegram" : String) == "telegram") = true := by decide
  have k4 : (("google" : String) == "telegram") = false := by decide
  have k5 : (("yandex" : String) == "telegram") = false := by decide
  obtain ⟨bg, dg⟩ := cg
  obtain ⟨by_, dy⟩ := cy
  obtain ⟨bt, dt⟩ := ct
  cases bg <;> cases by_ <;> cases bt <;>
    simp only [telegramOnlyFailure, List.lookup, List.all_cons, List.all_nil,
      k1, k2, k3, k4, k5, Bool.false_or, Bool.or_false, Bool.true_and, Bool.and_true,
      Bool.not_false, Bool.not_true, Bool.false_and, Bool.and_false, Bool.true_or] at h <;>
    first
      | (apply analyze_results_threshold; simp [successful_checks]; done)
      | exact absurd h Bool.false_ne_true

lemma caveat_two_false (cg cy : ProbeResult) :
    telegramOnlyFailure [("google", cg), ("yandex", cy)] = false := by
  simp only [telegramOnlyFailure, List.lookup]
  rfl

/-- Claim C10: the telegram-caveat branch is reachable: a ResultSet whose
only entry is a failed telegram probe has fewer than 2 successes and makes
analyze_results return internet-up true with the caveat message; yet on
every ResultSet actually produced by check_all_services on which the
caveat guard holds, the success count already meets the threshold and the
plain availability verdict is returned, so the branch fires only on shapes
the engine never produces. -/
theorem C10_caveat_reachable_only_outside_engine :
    (successful_checks [("telegram", (false, "Таймаут"))] < 2
      ∧ analyze_results [("telegram", (false, "Таймаут"))]
          = (true, "Интернет доступен, но проблемы с Telegram API"))
    ∧ (∀ (token : Option String) (netGoogle netYandex netTelegram : NetOutcome),
      telegramOnlyFailure (check_all_services token netGoogle netYandex netTelegram) = true →
      analyze_results (check_all_services token netGoogle netYandex netTelegram)
        = (true, "Интернет доступен")) := by
  constructor
  · exact ⟨by decide, by decide⟩
  · intro token netGoogle netYandex netTelegram hguard
    by_cases ht : pyTruthy (mkUrls token).telegram = true
    · unfold check_all_services at hguard ⊢
      rw [if_pos ht] at hguard ⊢
      simp only [List.cons_append, List.nil_append] at hguard ⊢
      exact caveat_three _ _ _ hguard
    · rw [Bool.not_eq_true] at ht
      unfold check_all_services at hguard
      rw [if_neg (by rw [ht]; exact Bool.false_ne_true)] at hguard
      simp only [List.cons_append, List.nil_append] at hguard
      rw [caveat_two_false] at hguard
      cases hguard

/-- Witness for C10 at a configured token where both baselines respond 200
and telegram times out: the guard of the caveat branch holds on the
produced ResultSet, and the verdict is the plain availability one. -/
theorem C10_caveat_reachable_only_outside_engine_witness :
    analyze_results
        (check_all_services (some "tok") (NetOutcome.response 200) (NetOutcome.response 200)
          NetOutcome.timeout)
      = (true, "Интернет доступен") :=
  C10_caveat_reachable_only_outside_engine.2 (some "tok") (NetOutcome.response 200)
    (NetOutcome.response 200) NetOutcome.timeout (by decide)

end NetworkChecker
